import Mathlib

/-!
# Verification of the movie-chat HTTP backend (`src/main.rs`)

A shallow embedding of the six request handlers (`register`, `login`,
`logout`, `get_movies`, `post_chat`, `get_chats`) of the Rust/tide/sqlx
service.  The SQLite store is modelled as lists of rows; each handler is a
pure function from a database state and a request to a new database state
and a response.  The external `bcrypt` crate is modelled as a parameter
(`Bcrypt`): a hashing function and a verification function, about which
the theorems assume only what the claims need.

SQLite semantics embedded here, as they apply to this schema:
* `TEXT UNIQUE NOT NULL` rejects a duplicate value but accepts any string,
  including the empty string (`NOT NULL` only rejects SQL NULL, and the
  handlers always bind Rust `String`s, never NULL);
* `INTEGER PRIMARY KEY AUTOINCREMENT` assigns a fresh id larger than any
  id used so far (modelled as max id + 1);
* the declared `FOREIGN KEY` clauses ARE enforced: the program connects
  through sqlx (`SqlitePool::connect`), whose default
  `SqliteConnectOptions` set `PRAGMA foreign_keys = ON`, so a `chats`
  insert whose `user_id` matches no `users.id` or whose `movie_id`
  matches no `movies.id` fails with a FOREIGN KEY constraint error;
* an `UPDATE ... WHERE` reports via `rows_affected` the number of rows
  matched by the WHERE clause (SQLite counts a row even when the new value
  equals the old one);
* `ORDER BY` on the `DATETIME` column `created_at`, whose values are the
  text timestamps produced by `CURRENT_TIMESTAMP`, compares the stored
  text values (BINARY collation, i.e. lexicographic order on `String`).
-/

/-- A row of the `users` table (`CREATE TABLE users` in `main`):
`id INTEGER PRIMARY KEY AUTOINCREMENT, username TEXT UNIQUE NOT NULL,
password TEXT NOT NULL, logged_in BOOLEAN NOT NULL DEFAULT 0`. -/
structure User where
  id : Int
  username : String
  password : String
  logged_in : Bool
deriving DecidableEq, Repr

/-- A row of the `chats` table (`CREATE TABLE chats` in `main`):
`chat_id INTEGER PRIMARY KEY AUTOINCREMENT, movie_id INTEGER NOT NULL,
user_id INTEGER NOT NULL, chat TEXT NOT NULL,
created_at DATETIME DEFAULT CURRENT_TIMESTAMP`. -/
structure ChatRow where
  chat_id : Int
  movie_id : Int
  user_id : Int
  chat : String
  created_at : String
deriving DecidableEq, Repr

/-- The `Movie` struct of the source (row of the pre-populated `movies`
table), with `Option` for the nullable columns. -/
structure Movie where
  id : Int
  adult : Bool
  backdrop_path : Option String
  genre_ids : String
  origin_country : String
  original_language : Option String
  original_name : Option String
  original_title : Option String
  overview : Option String
  popularity : Float
  poster_path : Option String
  first_air_date : Option String
  release_date : Option String
  name : Option String
  title : Option String
  video : Bool
  vote_average : Float
  vote_count : Int

/-- The `ChatMessage` struct of the source: one row of the join produced
by `get_chats`. -/
structure ChatMessage where
  chat_id : Int
  movie_id : Int
  user_id : Int
  username : String
  chat : String
  created_at : String
deriving DecidableEq, Repr

/-- The database state: the three tables of the SQLite store. -/
structure Db where
  users : List User
  chats : List ChatRow
  movies : List Movie

/-- An HTTP response as every handler builds it: a status code and the
JSON body `{status, message}` (the source's `LoginResponse`,
`LogoutResponse`, `RegisterResponse`, `ChatResponse` all have this
shape). -/
structure ApiResp where
  code : Nat
  status : String
  message : String
deriving DecidableEq, Repr

/-- The external `bcrypt` crate, as the handlers use it: `bcrypt::hash`
(with the fixed `DEFAULT_COST`, so the cost argument is absorbed into the
function) and `bcrypt::verify`. -/
structure Bcrypt where
  hash : String → String
  verify : String → String → Bool

/-- Request body of POST `/login` (`LoginRequest`). -/
structure LoginRequest where
  username : String
  password : String
deriving DecidableEq, Repr

/-- Request body of POST `/logout` (`LogoutRequest`). -/
structure LogoutRequest where
  username : String
deriving DecidableEq, Repr

/-- Request body of POST `/register` (`RegisterRequest`). -/
structure RegisterRequest where
  username : String
  password : String
deriving DecidableEq, Repr

/-- Request body of POST `/chat` (`SendChatRequest`). -/
structure SendChatRequest where
  movie_id : Int
  user_id : Int
  chat : String
deriving DecidableEq, Repr

/-- `AUTOINCREMENT` id assignment for the `users` table: one more than
the largest id used so far. -/
def nextUserId (users : List User) : Int :=
  (users.foldl (fun m u => max m u.id) 0) + 1

/-- `AUTOINCREMENT` id assignment for the `chats` table. -/
def nextChatId (chats : List ChatRow) : Int :=
  (chats.foldl (fun m c => max m c.chat_id) 0) + 1

/-- The `login` handler.  `SELECT id, password FROM users WHERE
username = ?` with `fetch_optional` returns the first matching row (the
`UNIQUE` constraint makes it the only one); `row.is_none()` yields the
401 "User tidak ditemukan" response; a failed `bcrypt::verify` yields the
401 "Password salah" response; otherwise `UPDATE users SET logged_in = 1
WHERE id = ?` runs and the 200 success response is returned. -/
def login (B : Bcrypt) (db : Db) (r : LoginRequest) : Db × ApiResp :=
  match db.users.find? (fun u => u.username == r.username) with
  | none => (db, ⟨401, "Failed", "User tidak ditemukan"⟩)
  | some u =>
    if !B.verify r.password u.password then
      (db, ⟨401, "Failed", "Password salah"⟩)
    else
      ({ db with
          users := db.users.map (fun v =>
            if v.id == u.id then { v with logged_in := true } else v) },
       ⟨200, "success", "Berhasil Login"⟩)

/-- The `logout` handler. `UPDATE users SET logged_in = 0 WHERE
username = ?` runs first; `rows_affected` is the number of rows the WHERE
clause matched (SQLite counts a matched row even when `logged_in` was
already 0).  `rows_affected == 0` yields the 400 error; otherwise the 200
success. -/
def logout (db : Db) (r : LogoutRequest) : Db × ApiResp :=
  let users' := db.users.map (fun u =>
    if u.username == r.username then { u with logged_in := false } else u)
  let affected := db.users.countP (fun u => u.username == r.username)
  let db' := { db with users := users' }
  if affected == 0 then
    (db', ⟨400, "error", "User tidak ditemukan"⟩)
  else
    (db', ⟨200, "success", "Sayonara"⟩)

/-- The `register` handler.  It hashes the supplied password with
`bcrypt::hash(password, DEFAULT_COST)` and runs `INSERT INTO users
(username, password, logged_in) VALUES (?, ?, 0)`.  The insert fails
exactly on a constraint violation: with this schema, only the `UNIQUE`
constraint on `username` can fire (the bound values are strings, never
NULL, so `NOT NULL` always holds — the empty string included).  On
failure the handler returns 400 with the store's error text appended to
"Gagal Daftar: ". -/
def register (B : Bcrypt) (db : Db) (r : RegisterRequest) : Db × ApiResp :=
  let hashed := B.hash r.password
  if db.users.any (fun u => u.username == r.username) then
    (db, ⟨400, "Failed",
      "Gagal Daftar: UNIQUE constraint failed: users.username"⟩)
  else
    ({ db with
        users := db.users ++ [⟨nextUserId db.users, r.username, hashed, false⟩] },
     ⟨200, "success", "Berhasil Daftar"⟩)

/-- The fixed image-host base of `get_movies`. -/
def base_url : String := "https://image.tmdb.org/t/p/original"

/-- The per-row rewrite in `get_movies`: when `backdrop_path`
(resp. `poster_path`) is `Some path`, replace it by
`format!("{}{}", base_url, path)`; otherwise leave the field alone. -/
def rewriteMovie (m : Movie) : Movie :=
  let m1 :=
    match m.backdrop_path with
    | some path => { m with backdrop_path := some (base_url ++ path) }
    | none => m
  match m1.poster_path with
  | some path => { m1 with poster_path := some (base_url ++ path) }
  | none => m1

/-- The `get_movies` handler: `SELECT ... FROM movies` (all rows, table
order, no filter) followed by the path rewrite; always status 200. -/
def get_movies (db : Db) : List Movie × Nat :=
  (db.movies.map rewriteMovie, 200)

/-- The Unicode White_Space property, which Rust's
`char::is_whitespace` tests: U+0009..U+000D, U+0020, U+0085, U+00A0,
U+1680, U+2000..U+200A, U+2028, U+2029, U+202F, U+205F, U+3000. -/
def isUnicodeWhitespace (c : Char) : Bool :=
  let n := c.toNat
  (9 ≤ n && n ≤ 13) || n == 32 || n == 133 || n == 160 || n == 5760 ||
  (8192 ≤ n && n ≤ 8202) || n == 8232 || n == 8233 || n == 8239 ||
  n == 8287 || n == 12288

/-- Rust's `str::trim`: the string with leading and trailing Unicode
White_Space characters removed. -/
def rustTrim (s : String) : String :=
  ⟨((s.data.dropWhile isUnicodeWhitespace).reverse.dropWhile
      isUnicodeWhitespace).reverse⟩

/-- The `post_chat` handler.  `data.chat.trim().is_empty()` yields the
400 "Pesan chat tidak boleh kosong" response without touching the store;
otherwise `INSERT INTO chats (movie_id, user_id, chat) VALUES (?, ?, ?)`
runs.  The bound values are never NULL, so the only constraints that can
reject the insert are the two FOREIGN KEYs, enforced because sqlx's
connection defaults set `PRAGMA foreign_keys = ON`: when `user_id`
matches some `users.id` and `movie_id` matches some `movies.id` the row
is inserted (`created_at` gets the server timestamp `now`) and the 200
success is returned; otherwise the insert fails and the handler returns
500 with the store's error text appended to "Gagal mengirim pesan: ". -/
def post_chat (db : Db) (now : String) (r : SendChatRequest) : Db × ApiResp :=
  if rustTrim r.chat = "" then
    (db, ⟨400, "error", "Pesan chat tidak boleh kosong"⟩)
  else if db.users.any (fun u => u.id == r.user_id) &&
      db.movies.any (fun m => m.id == r.movie_id) then
    ({ db with
        chats := db.chats ++ [⟨nextChatId db.chats, r.movie_id, r.user_id, r.chat, now⟩] },
     ⟨200, "success", "Pesan terkirim"⟩)
  else
    (db, ⟨500, "error",
      "Gagal mengirim pesan: FOREIGN KEY constraint failed"⟩)

/-- Rust's `str::parse::<i32>()`: an optional `+` or `-` sign followed by
at least one ASCII digit, the whole string consumed, and the value within
the `i32` range; anything else is an error (`none`). -/
def parseI32 (s : String) : Option Int :=
  let digits : List Char → Option Nat := fun cs =>
    if cs.isEmpty then none
    else if cs.all Char.isDigit then
      some (cs.foldl (fun a c => a * 10 + (c.toNat - 48)) 0)
    else none
  let signed : Int → List Char → Option Int := fun sign cs =>
    (digits cs).bind (fun n =>
      let v : Int := sign * (n : Int)
      if -2147483648 ≤ v ∧ v ≤ 2147483647 then some v else none)
  match s.data with
  | '+' :: rest => signed 1 rest
  | '-' :: rest => signed (-1) rest
  | cs => signed 1 cs

/-- The join step of `get_chats`' query: `JOIN users u ON c.user_id =
u.id` resolves the chat row's poster.  `u.id` is the PRIMARY KEY, so at
most one user matches and the join on one chat row yields that user's
username, or no output row when no user has the id. -/
def joinChatUser (users : List User) (c : ChatRow) : Option ChatMessage :=
  (users.find? (fun u => u.id == c.user_id)).map (fun u =>
    ⟨c.chat_id, c.movie_id, c.user_id, u.username, c.chat, c.created_at⟩)

/-- Comparison used by `ORDER BY c.created_at ASC`: the stored text
timestamps under BINARY collation, i.e. the order on `String`. -/
def createdAtLe (a b : ChatMessage) : Prop :=
  a.created_at ≤ b.created_at

instance : DecidableRel createdAtLe := fun a b =>
  inferInstanceAs (Decidable (a.created_at ≤ b.created_at))

instance : IsTotal ChatMessage createdAtLe :=
  ⟨fun a b => le_total a.created_at b.created_at⟩

instance : IsTrans ChatMessage createdAtLe :=
  ⟨fun _ _ _ h h' => le_trans h h'⟩

/-- The query of `get_chats` for a concrete movie id: filter `chats` on
`movie_id`, join each row with its poster, and sort ascending by
`created_at` (no LIMIT clause). -/
def chatsForMovie (db : Db) (movie_id : Int) : List ChatMessage :=
  List.insertionSort createdAtLe
    ((db.chats.filter (fun c => c.movie_id == movie_id)).filterMap
      (joinChatUser db.users))

/-- The `get_chats` handler: `req.param("movie_id")` parsed with
`.parse().unwrap_or(0)`, then the query; always status 200. -/
def get_chats (db : Db) (movie_id_param : String) : List ChatMessage × Nat :=
  (chatsForMovie db ((parseI32 movie_id_param).getD 0), 200)

/-! ## Concrete example values (used by witnesses and counterexamples) -/

/-- A concrete instance of the `Bcrypt` interface: a (fake, but
injectively salted-looking) hash with a matching verifier, enough to
evaluate the handlers on concrete inputs. -/
def exB : Bcrypt :=
  ⟨fun p => "$2b$12$" ++ p, fun p h => h == "$2b$12$" ++ p⟩

/-- A registered user, as `register` would store it for password
"pw1". -/
def exAlice : User := ⟨1, "alice", exB.hash "pw1", false⟩

/-- A store with one registered user. -/
def exDb : Db := ⟨[exAlice], [], []⟩

/-- The freshly bootstrapped store: empty `users` and `chats`. -/
def emptyDb : Db := ⟨[], [], []⟩

/-- A movie row with both image paths present. -/
def exMovie : Movie :=
  ⟨7, false, some "/bd.jpg", "[28]", "US", some "en", none, none,
   some "overview", 1.5, some "/abc.jpg", none, some "2024-01-01", none,
   some "Title", false, 7.5, 100⟩

/-- A store with one user and chats for two movies, stored out of
timestamp order, plus one dangling chat row (user_id 99 matches no
user). -/
def exChatDb : Db :=
  ⟨[exAlice],
   [⟨1, 5, 1, "second", "2024-01-02 00:00:00"⟩,
    ⟨2, 5, 1, "first", "2024-01-01 00:00:00"⟩,
    ⟨3, 6, 1, "other movie", "2024-01-01 00:00:00"⟩,
    ⟨4, 5, 99, "dangling", "2024-01-03 00:00:00"⟩],
   []⟩

/-- A store with one user (id 1), one movie (id 7) and no chats. -/
def exMovieDb : Db := ⟨[exAlice], [], [exMovie]⟩

/-! ## Claims -/

/-- C1: a login whose username matches no user row yields the 401
response "User tidak ditemukan"; a login whose username matches a row
but whose password fails `bcrypt::verify` yields the 401 response
"Password salah" — the two cases share the status code 401 and have
distinct messages. -/
theorem login_failure_cases (B : Bcrypt) (db : Db) (r : LoginRequest) :
    (db.users.find? (fun u => u.username == r.username) = none →
      login B db r = (db, ⟨401, "Failed", "User tidak ditemukan"⟩)) ∧
    (∀ u, db.users.find? (fun u => u.username == r.username) = some u →
      B.verify r.password u.password = false →
      login B db r = (db, ⟨401, "Failed", "Password salah"⟩)) ∧
    (ApiResp.mk 401 "Failed" "User tidak ditemukan").code =
      (ApiResp.mk 401 "Failed" "Password salah").code ∧
    (ApiResp.mk 401 "Failed" "User tidak ditemukan").message ≠
      (ApiResp.mk 401 "Failed" "Password salah").message := by
  refine ⟨fun h => by simp [login, h],
          fun u hu hv => by simp [login, hu, hv],
          rfl, by decide⟩

/-- Witness for C1: on a store holding only "alice", logging in as an
unknown user and logging in as "alice" with a wrong password produce the
two distinct 401 responses. -/
theorem login_failure_cases_witness :
    login exB exDb ⟨"ghost", "x"⟩ =
      (exDb, ⟨401, "Failed", "User tidak ditemukan"⟩) ∧
    login exB exDb ⟨"alice", "wrong"⟩ =
      (exDb, ⟨401, "Failed", "Password salah"⟩) :=
  ⟨(login_failure_cases exB exDb ⟨"ghost", "x"⟩).1 (by decide),
   (login_failure_cases exB exDb ⟨"alice", "wrong"⟩).2.1 exAlice
     (by decide) (by decide)⟩

/-- C2: when the username matches row `u` and the password verifies
against the stored hash, `login` returns the success response and the
store afterwards holds `u` with `logged_in = true`; every row is updated
exactly when its id equals `u.id`, so rows with a different id are
unchanged, and the other tables are untouched. -/
theorem login_success_sets_flag (B : Bcrypt) (db : Db) (r : LoginRequest)
    (u : User)
    (hfind : db.users.find? (fun v => v.username == r.username) = some u)
    (hver : B.verify r.password u.password = true) :
    (login B db r).2 = ⟨200, "success", "Berhasil Login"⟩ ∧
    (login B db r).1.users = db.users.map (fun v =>
      if v.id == u.id then { v with logged_in := true } else v) ∧
    { u with logged_in := true } ∈ (login B db r).1.users ∧
    (∀ v ∈ db.users, v.id ≠ u.id → v ∈ (login B db r).1.users) ∧
    (login B db r).1.chats = db.chats ∧
    (login B db r).1.movies = db.movies := by
  have hmem : u ∈ db.users := List.mem_of_find?_eq_some hfind
  have hl : login B db r =
      ({ db with users := db.users.map (fun v =>
          if v.id == u.id then { v with logged_in := true } else v) },
       ⟨200, "success", "Berhasil Login"⟩) := by
    simp [login, hfind, hver]
  refine ⟨by rw [hl], by rw [hl], ?_, ?_, by rw [hl], by rw [hl]⟩
  · rw [hl]
    exact List.mem_map.mpr ⟨u, hmem, by simp⟩
  · intro v hv hne
    rw [hl]
    exact List.mem_map.mpr ⟨v, hv, by simp [hne]⟩

/-- Witness for C2: logging in as "alice" with the right password
succeeds and the stored row ends up with `logged_in = true`. -/
theorem login_success_sets_flag_witness :
    (login exB exDb ⟨"alice", "pw1"⟩).2 =
      ⟨200, "success", "Berhasil Login"⟩ ∧
    { exAlice with logged_in := true } ∈
      (login exB exDb ⟨"alice", "pw1"⟩).1.users :=
  have h := login_success_sets_flag exB exDb ⟨"alice", "pw1"⟩ exAlice
    (by decide) (by decide)
  ⟨h.1, h.2.2.1⟩

/-- C3: a successful registration (username not yet taken; the bcrypt
hypotheses say the hash verifies against its own input and differs from
the plaintext, as bcrypt's salted format guarantees) appends exactly one
user row, with `logged_in = false` and the bcrypt hash — not the
plaintext — in the password field, verifiable by the login-side
algorithm. -/
theorem register_stores_hash (B : Bcrypt) (db : Db) (r : RegisterRequest)
    (hfree : ∀ u ∈ db.users, u.username ≠ r.username)
    (hsound : B.verify r.password (B.hash r.password) = true)
    (hsalt : B.hash r.password ≠ r.password) :
    (register B db r).2 = ⟨200, "success", "Berhasil Daftar"⟩ ∧
    ∃ row : User,
      (register B db r).1.users = db.users ++ [row] ∧
      row.username = r.username ∧
      row.logged_in = false ∧
      row.password = B.hash r.password ∧
      B.verify r.password row.password = true ∧
      row.password ≠ r.password := by
  have hany : db.users.any (fun u => u.username == r.username) = false := by
    rw [List.any_eq_false]
    intro u hu
    simpa using hfree u hu
  have hr : register B db r =
      ({ db with users := db.users ++
          [⟨nextUserId db.users, r.username, B.hash r.password, false⟩] },
       ⟨200, "success", "Berhasil Daftar"⟩) := by
    simp [register, hany]
  exact ⟨by rw [hr],
    ⟨nextUserId db.users, r.username, B.hash r.password, false⟩,
    by rw [hr], rfl, rfl, rfl, hsound, hsalt⟩

/-- Witness for C3: registering "bob" on the empty store inserts the
hashed row. -/
theorem register_stores_hash_witness :
    (register exB emptyDb ⟨"bob", "pw"⟩).2 =
      ⟨200, "success", "Berhasil Daftar"⟩ ∧
    ∃ row : User,
      (register exB emptyDb ⟨"bob", "pw"⟩).1.users = emptyDb.users ++ [row] ∧
      row.username = "bob" ∧
      row.logged_in = false ∧
      row.password = exB.hash "pw" ∧
      exB.verify "pw" row.password = true ∧
      row.password ≠ "pw" :=
  register_stores_hash exB emptyDb ⟨"bob", "pw"⟩
    (by intro u hu; simp [emptyDb] at hu) (by decide) (by decide)

/-- C4 counterexample: on the freshly bootstrapped (empty) store,
registering with empty username and empty password is NOT rejected: the
response code is 200 rather than 400, and a user row is inserted. -/
theorem register_empty_rejected_cex :
    (register exB emptyDb ⟨"", ""⟩).2.code ≠ 400 ∧
    (register exB emptyDb ⟨"", ""⟩).1.users ≠ [] := by
  decide

/-- C4 amended: the handler performs no emptiness pre-validation and the
store's constraints do not reject the empty string (`NOT NULL` only
rejects NULL), so a registration whose username or password is empty
succeeds — inserting the row with the hashed password — whenever the
username is not already taken; only a constraint violation such as a
duplicate username yields the 400 failure. -/
theorem register_empty_not_rejected (B : Bcrypt) (db : Db)
    (r : RegisterRequest)
    (hempty : r.username = "" ∨ r.password = "")
    (hfree : ∀ u ∈ db.users, u.username ≠ r.username) :
    (register B db r).2 = ⟨200, "success", "Berhasil Daftar"⟩ ∧
    (register B db r).1.users = db.users ++
      [⟨nextUserId db.users, r.username, B.hash r.password, false⟩] := by
  have hany : db.users.any (fun u => u.username == r.username) = false := by
    rw [List.any_eq_false]
    intro u hu
    simpa using hfree u hu
  constructor
  · simp [register, hany]
  · simp [register, hany]

/-- Witness for C4 (amended): registering with both fields empty on the
empty store succeeds and inserts the row. -/
theorem register_empty_not_rejected_witness :
    (register exB emptyDb ⟨"", ""⟩).2 =
      ⟨200, "success", "Berhasil Daftar"⟩ ∧
    (register exB emptyDb ⟨"", ""⟩).1.users = emptyDb.users ++
      [⟨nextUserId emptyDb.users, "", exB.hash "", false⟩] :=
  register_empty_not_rejected exB emptyDb ⟨"", ""⟩ (Or.inl rfl)
    (by intro u hu; simp [emptyDb] at hu)

/-- C5 counterexample: "halo" is non-blank, yet posting it with a
`movie_id` (5) and `user_id` (99) that reference no rows does NOT insert
a chat row — the store's enforced foreign keys reject it and the
response is not a success — refuting the claim that every non-blank
request inserts a row with no reference validation. -/
theorem post_chat_no_validation_cex :
    rustTrim "halo" ≠ "" ∧
    (post_chat exDb "2024-01-01 00:00:00" ⟨5, 99, "halo"⟩).2.code ≠ 200 ∧
    (post_chat exDb "2024-01-01 00:00:00" ⟨5, 99, "halo"⟩).2.code = 500 ∧
    (post_chat exDb "2024-01-01 00:00:00" ⟨5, 99, "halo"⟩).1.chats = [] := by
  decide

/-- C5 amended: a request whose chat text is empty after trimming yields
the 400 "Pesan chat tidak boleh kosong" response and inserts nothing;
for non-blank text the handler itself still validates neither
`movie_id` nor `user_id`, but the store's foreign-key constraints
(enabled by sqlx's connection defaults) do: when both reference existing
rows the chat row is inserted with the 200 success, and when either is
dangling the insert fails with status 500 and the store is unchanged. -/
theorem post_chat_validation (db : Db) (now : String)
    (r : SendChatRequest) :
    (rustTrim r.chat = "" →
      post_chat db now r =
        (db, ⟨400, "error", "Pesan chat tidak boleh kosong"⟩)) ∧
    (rustTrim r.chat ≠ "" →
      ((db.users.any (fun u => u.id == r.user_id) &&
          db.movies.any (fun m => m.id == r.movie_id)) = true →
        (post_chat db now r).2 = ⟨200, "success", "Pesan terkirim"⟩ ∧
        (post_chat db now r).1.chats = db.chats ++
          [⟨nextChatId db.chats, r.movie_id, r.user_id, r.chat, now⟩] ∧
        (post_chat db now r).1.users = db.users) ∧
      ((db.users.any (fun u => u.id == r.user_id) &&
          db.movies.any (fun m => m.id == r.movie_id)) = false →
        (post_chat db now r).2.code = 500 ∧
        (post_chat db now r).1 = db)) := by
  refine ⟨fun h => by simp [post_chat, h], fun h => ⟨?_, ?_⟩⟩
  · intro hfk
    simp [post_chat, h, hfk]
  · intro hfk
    simp [post_chat, h, hfk]

/-- Witness for C5 (amended): a whitespace-only chat is rejected; a
non-blank chat whose `user_id` (1, alice) and `movie_id` (7) both exist
is inserted with the success response; the same text with the
nonexistent `user_id` 99 fails with 500. -/
theorem post_chat_validation_witness :
    post_chat exMovieDb "2024-01-01 00:00:00" ⟨7, 1, " "⟩ =
      (exMovieDb, ⟨400, "error", "Pesan chat tidak boleh kosong"⟩) ∧
    (post_chat exMovieDb "2024-01-01 00:00:00" ⟨7, 1, "halo"⟩).2 =
      ⟨200, "success", "Pesan terkirim"⟩ ∧
    (post_chat exMovieDb "2024-01-01 00:00:00" ⟨7, 99, "halo"⟩).2.code =
      500 :=
  ⟨(post_chat_validation exMovieDb "2024-01-01 00:00:00" ⟨7, 1, " "⟩).1
      (by decide),
   (((post_chat_validation exMovieDb "2024-01-01 00:00:00"
        ⟨7, 1, "halo"⟩).2 (by decide)).1 (by decide)).1,
   (((post_chat_validation exMovieDb "2024-01-01 00:00:00"
        ⟨7, 99, "halo"⟩).2 (by decide)).2 (by decide)).1⟩

/-- C6: a logout for an unknown username returns the 400 error "User
tidak ditemukan" and changes no row; a logout for any stored username
returns the success response and clears `logged_in` on the matching row
— with no hypothesis on the row's prior `logged_in` value, so logout
succeeds even when the user was already logged out. -/
theorem logout_spec (db : Db) (r : LogoutRequest) :
    ((∀ u ∈ db.users, u.username ≠ r.username) →
      logout db r = (db, ⟨400, "error", "User tidak ditemukan"⟩)) ∧
    (∀ u ∈ db.users, u.username = r.username →
      (logout db r).2 = ⟨200, "success", "Sayonara"⟩ ∧
      (logout db r).1.users = db.users.map (fun v =>
        if v.username == r.username then { v with logged_in := false }
        else v) ∧
      (logout db r).1.chats = db.chats ∧
      (logout db r).1.movies = db.movies) := by
  constructor
  · intro h
    have hc : db.users.countP (fun u => u.username == r.username) = 0 :=
      List.countP_eq_zero.mpr (fun u hu => by simpa using h u hu)
    have hmap : db.users.map (fun u =>
        if u.username = r.username then { u with logged_in := false }
        else u) = db.users := by
      have hcong := List.map_congr_left (l := db.users)
        (f := fun u =>
          if u.username = r.username then { u with logged_in := false }
          else u)
        (g := id) (fun u hu => by simp [h u hu])
      simpa using hcong
    simp [logout, hc, hmap]
  · intro u hu heq
    have hpos : db.users.countP (fun v => v.username == r.username) ≠ 0 := by
      have h0 : 0 < db.users.countP (fun v => v.username == r.username) :=
        List.countP_pos_iff.mpr ⟨u, hu, by simp [heq]⟩
      omega
    simp [logout, hpos]

/-- Witness for C6: logging out "ghost" fails with 400; logging out
"alice" — whose row has `logged_in = false` already — succeeds. -/
theorem logout_spec_witness :
    logout exDb ⟨"ghost"⟩ = (exDb, ⟨400, "error", "User tidak ditemukan"⟩) ∧
    (logout exDb ⟨"alice"⟩).2 = ⟨200, "success", "Sayonara"⟩ :=
  ⟨(logout_spec exDb ⟨"ghost"⟩).1 (by decide),
   ((logout_spec exDb ⟨"alice"⟩).2 exAlice (by decide) (by decide)).1⟩

/-- C7: `get_movies` returns (status 200) every movie row rewritten by
`rewriteMovie`, which maps a present `backdrop_path` (resp.
`poster_path`) to the fixed base concatenated with the stored relative
path, keeps an absent path absent, and alters no other field. -/
theorem get_movies_rewrites_paths (db : Db) :
    (get_movies db).2 = 200 ∧
    (get_movies db).1 = db.movies.map rewriteMovie ∧
    ∀ m : Movie,
      (m.backdrop_path = none → (rewriteMovie m).backdrop_path = none) ∧
      (∀ p, m.backdrop_path = some p →
        (rewriteMovie m).backdrop_path = some (base_url ++ p)) ∧
      (m.poster_path = none → (rewriteMovie m).poster_path = none) ∧
      (∀ p, m.poster_path = some p →
        (rewriteMovie m).poster_path = some (base_url ++ p)) ∧
      (rewriteMovie m).id = m.id ∧
      (rewriteMovie m).adult = m.adult ∧
      (rewriteMovie m).genre_ids = m.genre_ids ∧
      (rewriteMovie m).origin_country = m.origin_country ∧
      (rewriteMovie m).original_language = m.original_language ∧
      (rewriteMovie m).original_name = m.original_name ∧
      (rewriteMovie m).original_title = m.original_title ∧
      (rewriteMovie m).overview = m.overview ∧
      (rewriteMovie m).popularity = m.popularity ∧
      (rewriteMovie m).first_air_date = m.first_air_date ∧
      (rewriteMovie m).release_date = m.release_date ∧
      (rewriteMovie m).name = m.name ∧
      (rewriteMovie m).title = m.title ∧
      (rewriteMovie m).video = m.video ∧
      (rewriteMovie m).vote_average = m.vote_average ∧
      (rewriteMovie m).vote_count = m.vote_count := by
  refine ⟨rfl, rfl, fun m => ?_⟩
  obtain ⟨i, ad, bd, g, oc, ol, onm, ot, ov, pop, pp, fad, rd, nm, ti,
    vid, va, vc⟩ := m
  cases bd <;> cases pp <;> simp [rewriteMovie]

/-- Witness for C7: the sample movie's `/abc.jpg` poster path becomes
the absolute TMDB URL, and likewise its backdrop path. -/
theorem get_movies_rewrites_paths_witness :
    (rewriteMovie exMovie).poster_path =
      some "https://image.tmdb.org/t/p/original/abc.jpg" ∧
    (rewriteMovie exMovie).backdrop_path =
      some "https://image.tmdb.org/t/p/original/bd.jpg" :=
  have h := (get_movies_rewrites_paths emptyDb).2.2 exMovie
  ⟨(h.2.2.2.1 "/abc.jpg" rfl).trans (by decide),
   (h.2.1 "/bd.jpg" rfl).trans (by decide)⟩

/-- With unique user ids (the `users` PRIMARY KEY invariant), `find?` on
an id returns exactly the member carrying that id. -/
theorem find_user_by_id (u : User) (i : Int) (hid : u.id = i) :
    ∀ users : List User, (users.map User.id).Nodup → u ∈ users →
      users.find? (fun v => v.id == i) = some u := by
  intro users
  induction users with
  | nil => intro _ h; cases h
  | cons v vs ih =>
    intro hids hu
    rw [List.map_cons, List.nodup_cons] at hids
    rcases List.mem_cons.mp hu with h | h
    · subst h
      rw [List.find?_cons_of_pos _ (by simp [hid])]
    · have hne : ¬((v.id == i) = true) := by
        simp only [beq_iff_eq]
        intro he
        apply hids.1
        rw [he, ← hid]
        exact List.mem_map_of_mem User.id h
      rw [List.find?_cons_of_neg (a := v) _ hne]
      exact ih hids.2 h

/-- C8: under the PRIMARY KEY invariant (unique user ids), the chat
listing for a movie id is sorted ascending by `created_at`, and its
members are exactly the join rows: one message per stored chat row whose
`movie_id` matches and whose `user_id` is some user's id, carrying that
user's username — nothing else, and no limit. -/
theorem get_chats_exact_sorted (db : Db) (mid : Int)
    (hids : (db.users.map User.id).Nodup) :
    List.Sorted createdAtLe (chatsForMovie db mid) ∧
    ∀ msg, msg ∈ chatsForMovie db mid ↔
      ∃ c ∈ db.chats, ∃ u ∈ db.users,
        c.movie_id = mid ∧ u.id = c.user_id ∧
        msg = ⟨c.chat_id, c.movie_id, c.user_id, u.username, c.chat,
          c.created_at⟩ := by
  constructor
  · exact List.sorted_insertionSort createdAtLe _
  · intro msg
    constructor
    · intro hm
      rw [chatsForMovie, List.mem_insertionSort] at hm
      rcases List.mem_filterMap.mp hm with ⟨c, hc, hjoin⟩
      rcases List.mem_filter.mp hc with ⟨hcmem, hcf⟩
      rcases Option.map_eq_some'.mp hjoin with ⟨u, hfind, hmk⟩
      refine ⟨c, hcmem, u, List.mem_of_find?_eq_some hfind, ?_, ?_,
        hmk.symm⟩
      · simpa using hcf
      · simpa using List.find?_some hfind
    · rintro ⟨c, hcmem, u, humem, hcm, hid, rfl⟩
      rw [chatsForMovie, List.mem_insertionSort]
      apply List.mem_filterMap.mpr
      refine ⟨c, List.mem_filter.mpr ⟨hcmem, by simp [hcm]⟩, ?_⟩
      rw [joinChatUser, find_user_by_id u c.user_id hid db.users hids
        humem]
      rfl

/-- Witness for C8: on the example store the listing for movie 5 is
sorted and contains the join row for chat 2 ("first" by alice). -/
theorem get_chats_exact_sorted_witness :
    List.Sorted createdAtLe (chatsForMovie exChatDb 5) ∧
    (⟨2, 5, 1, "alice", "first", "2024-01-01 00:00:00"⟩ : ChatMessage) ∈
      chatsForMovie exChatDb 5 :=
  have h := get_chats_exact_sorted exChatDb 5 (by decide)
  ⟨h.1, (h.2 _).mpr ⟨⟨2, 5, 1, "first", "2024-01-01 00:00:00"⟩,
    by decide, exAlice, by decide, rfl, by decide, by decide⟩⟩

/-- C9: when the path parameter does not parse as an `i32`, `get_chats`
substitutes movie id 0 and still responds 200 with the chat list for
movie 0 — the empty list whenever no chat row has `movie_id = 0`. -/
theorem get_chats_unparsable_param (db : Db) (s : String)
    (hs : parseI32 s = none) :
    get_chats db s = (chatsForMovie db 0, 200) ∧
    ((∀ c ∈ db.chats, c.movie_id ≠ 0) → (get_chats db s).1 = []) := by
  have h0 : (parseI32 s).getD 0 = 0 := by rw [hs]; rfl
  constructor
  · rw [get_chats, h0]
  · intro hnone
    have hfilter : db.chats.filter (fun c => c.movie_id == (0 : Int)) = [] := by
      rw [List.filter_eq_nil_iff]
      intro c hc
      simpa using hnone c hc
    simp [get_chats, chatsForMovie, h0, hfilter]

/-- Witness for C9: "abc" does not parse, and the example store has no
chat for movie 0, so the result is the empty list with status 200. -/
theorem get_chats_unparsable_param_witness :
    get_chats exChatDb "abc" = (chatsForMovie exChatDb 0, 200) ∧
    (get_chats exChatDb "abc").1 = [] :=
  have h := get_chats_unparsable_param exChatDb "abc" (by decide)
  ⟨h.1, h.2 (by decide)⟩

/-- C10 counterexample: `post_chat` does NOT permit inserting a chat row
with a dangling `user_id`: on a store holding movie 7 but no user 99,
posting the non-blank "hi" as user 99 returns 500 and inserts nothing —
the enforced foreign key rejects it, refuting the claim's premise. -/
theorem post_chat_dangling_cex :
    (post_chat exMovieDb "2024-01-05 00:00:00" ⟨7, 99, "hi"⟩).2.code =
      500 ∧
    (post_chat exMovieDb "2024-01-05 00:00:00" ⟨7, 99, "hi"⟩).1.chats =
      [] := by
  decide

/-- C10 amended: a chat row with a dangling `user_id` cannot be created
through `post_chat` — the store's enforced foreign key makes any
non-blank post carrying such a `user_id` fail with 500, leaving the
store unchanged — but should the `chats` table nevertheless hold such a
row (written outside this system), the listing's inner join to `users`
silently omits it: no returned message carries that `user_id`. -/
theorem get_chats_omits_dangling (db : Db) (mid : Int) (c : ChatRow)
    (hc : c ∈ db.chats)
    (hdangling : ∀ u ∈ db.users, u.id ≠ c.user_id) :
    (∀ msg ∈ chatsForMovie db mid, msg.user_id ≠ c.user_id) ∧
    ∀ now : String, ∀ r : SendChatRequest, r.user_id = c.user_id →
      rustTrim r.chat ≠ "" →
      (post_chat db now r).2.code = 500 ∧ (post_chat db now r).1 = db := by
  constructor
  · intro msg hmsg
    rw [chatsForMovie, List.mem_insertionSort] at hmsg
    rcases List.mem_filterMap.mp hmsg with ⟨c', hc', hjoin⟩
    rcases Option.map_eq_some'.mp hjoin with ⟨u, hfind, hmk⟩
    have humem : u ∈ db.users := List.mem_of_find?_eq_some hfind
    have huid : u.id = c'.user_id := by simpa using List.find?_some hfind
    have hmu : msg.user_id = c'.user_id := by rw [← hmk]
    rw [hmu, ← huid]
    exact hdangling u humem
  · intro now r hru hblank
    have hanyu : db.users.any (fun u => u.id == r.user_id) = false := by
      rw [List.any_eq_false]
      intro u hu
      simp only [beq_iff_eq, hru]
      exact hdangling u hu
    simp [post_chat, hblank, hanyu]

/-- Witness for C10 (amended): the example store holds the dangling chat
row 4 (user 99); the movie-5 listing contains no message with user_id
99, and posting non-blank text as user 99 fails with 500. -/
theorem get_chats_omits_dangling_witness :
    (∀ msg ∈ chatsForMovie exChatDb 5, msg.user_id ≠ 99) ∧
    (post_chat exChatDb "2024-01-05 00:00:00" ⟨5, 99, "hello"⟩).2.code =
      500 :=
  have h := get_chats_omits_dangling exChatDb 5
    ⟨4, 5, 99, "dangling", "2024-01-03 00:00:00"⟩ (by decide) (by decide)
  ⟨h.1, (h.2 "2024-01-05 00:00:00" ⟨5, 99, "hello"⟩ rfl (by decide)).1⟩
